import Mathlib

/-!
Verification of the app_data_monitor data-collection and anomaly-analysis
pipeline.  The Lean definitions below are shallow embeddings of the Python
source under `src/monitoring/`:

* `retry_on_failure`       — `utils/api_clients.py`, the retry decorator;
* `calculate_percentage_change` — `utils/analytics.py`,
  `DataAnalyzer._calculate_percentage_change` (Python `round` is modelled by
  exact rational half-to-even rounding);
* `calculate_severity`, `check_single_rule` — `utils/anomaly_detector.py`
  (the float `inf` produced for a zero threshold is modelled by `⊤` in
  `WithTop ℚ`);
* `get_statistics_data`    — `utils/api_clients.py`,
  `GooglePlayConsoleClient.get_statistics_data` (CSV rows are modelled with
  their numeric columns already parsed, dates as the raw strings the code
  compares lexicographically; the Python dict is an association list with
  in-place overwrite);
* the `TaskExecution` lifecycle — `models.py` (`mark_started`,
  `mark_completed`, `can_retry`) and `utils/task_executor.py`
  (`_execute_task`, `_execute_schedule`, `retry_execution`,
  `execute_manual_task`), with the database modelled as the list of execution
  records and the outcome of the wrapped management command as an explicit
  `TaskOutcome`.
-/

namespace AppDataMonitor

/-! ### Retry decorator (`retry_on_failure` in `utils/api_clients.py`) -/

/-- Outcome of one underlying call attempt, as the decorator's `except`
clauses distinguish them: success, `requests.exceptions.HTTPError` (with the
status code of its response when a response object is present), any other
`requests.exceptions.RequestException`, or any non-request exception. -/
inductive CallResult where
  | ok
  | httpErr (response : Option Nat)
  | reqErr
  | otherErr
deriving DecidableEq, Repr

/-- Result of running the wrapped function: the exception that escaped (if
any), the number of calls made to the wrapped function, and the number of
backoff sleeps performed. -/
structure RetryResult where
  raised : Option CallResult
  attempts : Nat
  sleeps : Nat
deriving DecidableEq, Repr

/-- The decorator's non-retry test: `e.response and e.response.status_code in
[400, 401, 403, 404]`.  Python evaluates `e.response` for truthiness:
`requests.Response.__bool__` returns `self.ok`, which is false for every
status of 400 or more (and a missing response object is falsy too).  The
status list is therefore only consulted when the response status is below
400 — which no status in the list is, so this test never returns true for
an `HTTPError` produced by `raise_for_status`. -/
def nonRetryableStatus : Option Nat → Bool
  | none => false
  | some c => c < 400 && (c = 400 || c = 401 || c = 403 || c = 404)

/-- The decorator's `for attempt in range(max_retries + 1)` loop.  `f n` is
the outcome of the call on attempt `n`; a sleep happens at the top of every
attempt after the first.  The fuel argument equals the number of loop
iterations still permitted, so the `fuel = 0` base case is unreachable from
`retry_on_failure`. -/
def retryAux (f : Nat → CallResult) (maxRetries : Nat) : Nat → Nat → RetryResult
  | _, 0 => ⟨some .otherErr, 0, 0⟩
  | attempt, fuel + 1 =>
    let s : Nat := if 0 < attempt then 1 else 0
    match f attempt with
    | .ok => ⟨none, 1, s⟩
    | .httpErr resp =>
      if nonRetryableStatus resp then ⟨some (.httpErr resp), 1, s⟩
      else if attempt < maxRetries then
        let r := retryAux f maxRetries (attempt + 1) fuel
        ⟨r.raised, r.attempts + 1, r.sleeps + s⟩
      else ⟨some (.httpErr resp), 1, s⟩
    | .reqErr =>
      if attempt < maxRetries then
        let r := retryAux f maxRetries (attempt + 1) fuel
        ⟨r.raised, r.attempts + 1, r.sleeps + s⟩
      else ⟨some .reqErr, 1, s⟩
    | .otherErr => ⟨some .otherErr, 1, s⟩

/-- Running a function wrapped by `retry_on_failure(max_retries)` (the
decorator's default budget is `max_retries = 3`). -/
def retry_on_failure (f : Nat → CallResult) (maxRetries : Nat) : RetryResult :=
  retryAux f maxRetries 0 (maxRetries + 1)

/-! ### Percentage change (`DataAnalyzer._calculate_percentage_change`) -/

/-- Round-half-to-even on an exact rational, the semantics of Python's
builtin `round` at integer precision. -/
def roundHalfEven (x : ℚ) : ℤ :=
  if Int.fract x < 1 / 2 then ⌊x⌋
  else if 1 / 2 < Int.fract x then ⌊x⌋ + 1
  else if ⌊x⌋ % 2 = 0 then ⌊x⌋ else ⌊x⌋ + 1

/-- `round(x, 2)`: round half-to-even at two decimal places. -/
def pyRound2 (x : ℚ) : ℚ := (roundHalfEven (x * 100) : ℚ) / 100

/-- `DataAnalyzer._calculate_percentage_change(old_value, new_value)`. -/
def calculate_percentage_change (old_value new_value : ℚ) : ℚ :=
  if old_value = 0 then (if 0 < new_value then 100 else 0)
  else pyRound2 ((new_value - old_value) / old_value * 100)

/-- The percentage-change contract exactly as §8 of the spec words it, for
comparison with the function embedded from the source. -/
def percentChangeSpec (old_value new_value : ℚ) : ℚ :=
  if old_value = 0 ∧ 0 < new_value then 100
  else if old_value = 0 then 0
  else pyRound2 ((new_value - old_value) / old_value * 100)

/-! ### Anomaly severity and rule bounds (`utils/anomaly_detector.py`) -/

/-- The four severity levels returned by `_calculate_severity`. -/
inductive Severity where
  | critical
  | high
  | medium
  | low
deriving DecidableEq, Repr

/-- `AnomalyDetector._calculate_severity`: the deviation quotient
`abs(current - threshold) / abs(threshold)`, with `float('inf')` (modelled as
`⊤`) when the threshold is zero and the current value is not, then the
descending chain of band tests `>= 2.0`, `>= 1.0`, `>= 0.5`. -/
def calculate_severity (current_value threshold_value : ℚ) : Severity :=
  let d : WithTop ℚ :=
    if threshold_value = 0 then (if current_value ≠ 0 then ⊤ else 0)
    else ((|current_value - threshold_value| / |threshold_value| : ℚ) : WithTop ℚ)
  if (2 : WithTop ℚ) ≤ d then .critical
  else if (1 : WithTop ℚ) ≤ d then .high
  else if ((1 / 2 : ℚ) : WithTop ℚ) ≤ d then .medium
  else .low

/-- Trigger direction of a breached rule. -/
inductive TriggerDir where
  | below_minimum
  | above_maximum
deriving DecidableEq, Repr

/-- The bound checks of `AnomalyDetector._check_single_rule`: the
below-minimum test runs first, the above-maximum test runs second and
overwrites `trigger_type` / `threshold_value` when it also fires.  `none`
means the rule did not trigger. -/
def check_single_rule (threshold_min threshold_max : Option ℚ) (current_value : ℚ) :
    Option (TriggerDir × ℚ) :=
  let afterMin : Option (TriggerDir × ℚ) :=
    match threshold_min with
    | some tmin => if current_value < tmin then some (.below_minimum, tmin) else none
    | none => none
  match threshold_max with
  | some tmax => if tmax < current_value then some (.above_maximum, tmax) else afterMin
  | none => afterMin

/-! ### Google Play bulk client (`GooglePlayConsoleClient.get_statistics_data`)

Dates in this code are the stripped text of the CSV's `Date` cells and the
target's `strftime('%Y-%m-%d')` rendering; the source stores them as dict
keys and compares them with string `<=` / `sorted`.  For that fixed-width
format, lexicographic string order coincides with chronological order, so a
date here is modelled as the chronological value of that string (a `Nat`),
compared with `≤` exactly where the source compares the strings.

A parsed overview-CSV row: the value of its `Date` column when that cell is
a string (`none` models a non-string cell, which the source skips), and its
daily install / uninstall counts with the `_parse_int` sanitisation
(thousands separators, blanks, NaN → 0) already applied. -/

structure CsvRow where
  date : Option Nat
  installs : Nat
  uninstalls : Nat
deriving DecidableEq, Repr

/-- Python-dict insertion for `daily_map[d_key] = {...}`: overwrite the value
at an existing key in place, otherwise append the new key. -/
def dictInsert : List (Nat × Nat × Nat) → Nat → Nat × Nat → List (Nat × Nat × Nat)
  | [], k, v => [(k, v)]
  | (k', v') :: rest, k, v =>
    if k' = k then (k', v) :: rest else (k', v') :: dictInsert rest k v

/-- Python-dict lookup `daily_map.get(k)`. -/
def dictGet : List (Nat × Nat × Nat) → Nat → Option (Nat × Nat)
  | [], _ => none
  | (k', v') :: rest, k => if k' = k then some v' else dictGet rest k

/-- The row loop of `get_statistics_data`: every row whose `Date` cell is a
string is written into `daily_map` under its date, and the loop `break`s as
soon as a row's date equals the target key (that row becomes `matched_row`).
Returns the map as built so far and the matched row, if any. -/
def buildDailyMap (date_key : Nat) (acc : List (Nat × Nat × Nat)) :
    List CsvRow → List (Nat × Nat × Nat) × Option CsvRow
  | [] => (acc, none)
  | row :: rest =>
    match row.date with
    | none => buildDailyMap date_key acc rest
    | some d =>
      let acc' := dictInsert acc d (row.installs, row.uninstalls)
      if d = date_key then (acc', some row) else buildDailyMap date_key acc' rest

/-- The fields of the dictionary returned by `get_statistics_data` that the
claims are about. -/
structure GPlayStats where
  downloads : Nat
  deletions : Nat
  effective_date : Option Nat
  available_dates : List Nat
  daily_map : List (Nat × Nat × Nat)
  max_available_date : Option Nat
deriving DecidableEq, Repr

/-- `GooglePlayConsoleClient.get_statistics_data`, from the point where the
overview CSV has been downloaded and parsed into rows: build the daily map,
prefer the exact `target_date` row, otherwise fall back to the last entry of
the ascending sort of the map keys that are `<=` the target key (`max(...)`
over the dict keys is likewise the last entry of their ascending sort). -/
def get_statistics_data (rows : List CsvRow) (date_key : Nat) : GPlayStats :=
  let built := buildDailyMap date_key [] rows
  let dm := built.1
  let keys := dm.map Prod.fst
  let allSorted := List.insertionSort (· ≤ ·) keys
  match built.2 with
  | some row =>
    { downloads := row.installs
      deletions := row.uninstalls
      effective_date := some date_key
      available_dates := allSorted
      daily_map := dm
      max_available_date := allSorted.getLast? }
  | none =>
    let available_dates := List.insertionSort (· ≤ ·) (keys.filter (· ≤ date_key))
    match available_dates.getLast? with
    | some eff =>
      let fallback := dictGet dm eff
      { downloads := ((fallback.map Prod.fst).getD 0)
        deletions := ((fallback.map Prod.snd).getD 0)
        effective_date := some eff
        available_dates := allSorted
        daily_map := dm
        max_available_date := allSorted.getLast? }
    | none =>
      { downloads := 0
        deletions := 0
        effective_date := none
        available_dates := allSorted
        daily_map := dm
        max_available_date := allSorted.getLast? }

/-! ### Task scheduling and execution (`models.py`, `utils/task_executor.py`) -/

/-- Execution status (`TaskExecution.STATUS_CHOICES`). -/
inductive ExecStatus where
  | pending
  | running
  | success
  | failed
  | timeout
  | cancelled
deriving DecidableEq, Repr

/-- Trigger kind (`TaskExecution.TRIGGER_CHOICES`). -/
inductive TriggerKind where
  | scheduled
  | manual
  | retry
deriving DecidableEq, Repr

/-- The fields of a `TaskSchedule` row the executor reads. -/
structure TaskSchedule where
  id : Nat
  is_active : Bool
  retry_count : Nat
  timeout_minutes : Nat
  skip_notifications : Bool
  app : Option Nat
deriving DecidableEq, Repr

/-- Run statistics recorded on completion. -/
structure ExecStats where
  success_count : Nat
  error_count : Nat
  alerts_generated : Nat
  notifications_sent : Nat
deriving DecidableEq, Repr

/-- A `TaskExecution` row.  The schedule foreign key carries the schedule
itself (nullable); timestamps are omitted as wall-clock artefacts. -/
structure TaskExecution where
  schedule : Option TaskSchedule
  trigger_type : TriggerKind
  status : ExecStatus
  app : Option Nat
  target_date : Option Nat
  retry_count : Nat
  success_count : Nat
  error_count : Nat
  alerts_generated : Nat
  notifications_sent : Nat
  output_log : String
  error_log : String
deriving DecidableEq, Repr

/-- `TaskExecution.mark_started`. -/
def mark_started (e : TaskExecution) : TaskExecution :=
  { e with status := .running }

/-- `TaskExecution.mark_completed(success, output_log, error_log, stats)`:
sets `status` to `success` or `failed` from the flag, stores the logs, and
copies the counters when a stats dict was given. -/
def mark_completed (e : TaskExecution) (success : Bool)
    (output_log error_log : String) (stats : Option ExecStats) : TaskExecution :=
  let e' := { e with
    status := if success then ExecStatus.success else ExecStatus.failed
    output_log := output_log
    error_log := error_log }
  match stats with
  | some st => { e' with
      success_count := st.success_count
      error_count := st.error_count
      alerts_generated := st.alerts_generated
      notifications_sent := st.notifications_sent }
  | none => e'

/-- `TaskExecution.can_retry`. -/
def can_retry (e : TaskExecution) : Bool :=
  match e.schedule with
  | none => false
  | some s =>
    (e.status = ExecStatus.failed || e.status = ExecStatus.timeout)
      && e.retry_count < s.retry_count

/-- How the `run_daily_task` management command invoked by `_execute_task`
ends: normally, with a `CommandError`, with the alarm-driven `TimeoutError`,
or with any other exception. -/
inductive TaskOutcome where
  | ok
  | commandError
  | timeoutError
  | otherError
deriving DecidableEq, Repr

/-- `TaskExecutor._execute_task` acting on the execution record it owns:
`mark_started`, then run the command; a `TimeoutError` sets
`execution.status = 'timeout'` in its handler; finally the record is passed
to `mark_completed` — with `success=False` forced when the status had been
set to `timeout`.  The captured output/error text and the parsed statistics
are inputs of the model. -/
def execute_task (e : TaskExecution) (outcome : TaskOutcome)
    (output_log error_log : String) (stats : ExecStats) : TaskExecution :=
  let e1 := mark_started e
  let success : Bool := outcome = TaskOutcome.ok
  let e2 := if outcome = TaskOutcome.timeoutError
            then { e1 with status := ExecStatus.timeout } else e1
  if e2.status ≠ ExecStatus.timeout then
    mark_completed e2 success output_log error_log (some stats)
  else
    mark_completed e2 false output_log error_log (some stats)

/-- A fresh `TaskExecution.objects.create(...)` row: `pending`, zero
counters, empty logs. -/
def newExecution (schedule : Option TaskSchedule) (trigger : TriggerKind)
    (app : Option Nat) (target_date : Option Nat) (rc : Nat) : TaskExecution :=
  { schedule := schedule
    trigger_type := trigger
    status := .pending
    app := app
    target_date := target_date
    retry_count := rc
    success_count := 0
    error_count := 0
    alerts_generated := 0
    notifications_sent := 0
    output_log := ""
    error_log := "" }

/-- `TaskExecutor._execute_schedule`: skip inactive schedules; skip when some
execution of this schedule is still `running` (no record created); otherwise
create the record and run `_execute_task` on it.  The database is the list
of execution records; the returned `Bool` is the method's return value. -/
def execute_schedule (db : List TaskExecution) (schedule : TaskSchedule)
    (trigger : TriggerKind) (target_date : Option Nat) (outcome : TaskOutcome)
    (output_log error_log : String) (stats : ExecStats) :
    Bool × List TaskExecution :=
  if schedule.is_active = false then (false, db)
  else if db.any (fun e => e.schedule = some schedule && e.status = ExecStatus.running) then
    (false, db)
  else
    let e0 := newExecution (some schedule) trigger schedule.app target_date 0
    (outcome = TaskOutcome.ok, db ++ [execute_task e0 outcome output_log error_log stats])

/-- `TaskExecutor.execute_schedule_auto` (scheduler tick path). -/
def execute_schedule_auto (db : List TaskExecution) (schedule : TaskSchedule)
    (target_date : Option Nat) (outcome : TaskOutcome)
    (output_log error_log : String) (stats : ExecStats) : Bool × List TaskExecution :=
  execute_schedule db schedule .scheduled target_date outcome output_log error_log stats

/-- `TaskExecutor.execute_schedule_manual` (admin path). -/
def execute_schedule_manual (db : List TaskExecution) (schedule : TaskSchedule)
    (target_date : Option Nat) (outcome : TaskOutcome)
    (output_log error_log : String) (stats : ExecStats) : Bool × List TaskExecution :=
  execute_schedule db schedule .manual target_date outcome output_log error_log stats

/-- `TaskExecutor.execute_manual_task`: a schedule-less `manual` execution,
created unconditionally and run. -/
def execute_manual_task (db : List TaskExecution) (app : Option Nat)
    (target_date : Option Nat) (outcome : TaskOutcome)
    (output_log error_log : String) (stats : ExecStats) : Bool × List TaskExecution :=
  let e0 := newExecution none .manual app target_date 0
  (outcome = TaskOutcome.ok, db ++ [execute_task e0 outcome output_log error_log stats])

/-- `TaskExecutor.retry_execution`: refuse when `can_retry` is false (no
record created); otherwise create a fresh record with `trigger_type='retry'`,
the same schedule/app/target date and `retry_count + 1`, and run it. -/
def retry_execution (db : List TaskExecution) (e : TaskExecution)
    (outcome : TaskOutcome) (output_log error_log : String) (stats : ExecStats) :
    Bool × List TaskExecution :=
  if can_retry e = false then (false, db)
  else
    let e0 := newExecution e.schedule .retry e.app e.target_date (e.retry_count + 1)
    (outcome = TaskOutcome.ok, db ++ [execute_task e0 outcome output_log error_log stats])

/-! ### Concrete data used by witnesses and counterexamples -/

/-- The overview rows `2024-05-01 .. 2024-05-03` of the spec's §8 scenario,
with dates written as `yyyymmdd` numbers. -/
def sampleRows : List CsvRow :=
  [⟨some 20240501, 10, 1⟩, ⟨some 20240502, 20, 2⟩, ⟨some 20240503, 30, 3⟩]

/-- A sample active schedule with a retry budget of 3. -/
def sampleSchedule : TaskSchedule :=
  { id := 1, is_active := true, retry_count := 3, timeout_minutes := 30,
    skip_notifications := false, app := none }

/-- An execution of `sampleSchedule` still in `running` state. -/
def sampleRunning : TaskExecution :=
  { newExecution (some sampleSchedule) .scheduled none none 0 with status := .running }

/-- A failed execution of `sampleSchedule` that has already been retried
twice. -/
def sampleFailed : TaskExecution :=
  { newExecution (some sampleSchedule) .scheduled none none 2 with status := .failed }

/-- A statistics record for witness runs. -/
def sampleStats : ExecStats :=
  { success_count := 1, error_count := 0, alerts_generated := 0, notifications_sent := 0 }

end AppDataMonitor

namespace AppDataMonitor

/-! ### Helper lemmas -/

/-- Reduction of `calculate_severity` when the threshold is nonzero: the
deviation quotient is finite and the band tests become rational
comparisons. -/
theorem calculate_severity_of_ne (c t : ℚ) (ht : t ≠ 0) :
    calculate_severity c t =
      (if 2 ≤ |c - t| / |t| then Severity.critical
       else if 1 ≤ |c - t| / |t| then .high
       else if 1 / 2 ≤ |c - t| / |t| then .medium else .low) := by
  simp only [calculate_severity, if_neg ht, ← WithTop.coe_ofNat, ← WithTop.coe_one,
    WithTop.coe_le_coe]

/-- `execute_task` only ever rewrites the status, log and counter fields: the
schedule reference, trigger type and retry counter of the record are
untouched. -/
theorem execute_task_fixed_fields (e : TaskExecution) (outcome : TaskOutcome)
    (ol el : String) (st : ExecStats) :
    (execute_task e outcome ol el st).schedule = e.schedule
    ∧ (execute_task e outcome ol el st).trigger_type = e.trigger_type
    ∧ (execute_task e outcome ol el st).retry_count = e.retry_count := by
  cases outcome <;> simp [execute_task, mark_started, mark_completed]

/-! ### C1 — timeout status at finalization -/

/-- C1: the claim says a run that raises `TimeoutError` finishes with
terminal status `timeout`, preserved through `mark_completed`.  The code
instead lets `mark_completed` overwrite the `timeout` status it had just
set: `mark_completed` assigns `'success' if success else 'failed'`
unconditionally, so every timed-out execution record ends in status
`failed`, for any starting record, captured logs and statistics. -/
theorem timeout_run_marked_failed (e : TaskExecution) (ol el : String) (st : ExecStats) :
    (execute_task e TaskOutcome.timeoutError ol el st).status = ExecStatus.failed
    ∧ (execute_task e TaskOutcome.timeoutError ol el st).status ≠ ExecStatus.timeout := by
  constructor <;> simp [execute_task, mark_started, mark_completed]

/-! ### C2 — retry decorator and 4xx responses -/

/-- C2: the claim says an `HTTPError` whose response has status 400, 401,
403 or 404 is rethrown immediately on the first attempt, with no retry and
no backoff sleep.  In the program the guard `e.response and
e.response.status_code in [400, 401, 403, 404]` is always falsy for such an
error: `requests.Response.__bool__` returns `self.ok`, false for every
status of 400 or more, so the non-retry branch is dead code and a 4xx
response is retried exactly like a 500 — under the default budget of 3
retries, four calls and three sleeps before the error is rethrown. -/
theorem http_4xx_retried_to_exhaustion (f : Nat → CallResult) (s : Nat) :
    (400 ≤ s → nonRetryableStatus (some s) = false)
    ∧ (400 ≤ s → (∀ i, i ≤ 3 → f i = CallResult.httpErr (some s)) →
        retry_on_failure f 3 = ⟨some (CallResult.httpErr (some s)), 4, 3⟩) := by
  have hguard : ∀ hs : 400 ≤ s, nonRetryableStatus (some s) = false := by
    intro hs
    have hlt : decide (s < 400) = false := decide_eq_false (by omega)
    simp [nonRetryableStatus, hlt]
  refine ⟨hguard, fun hs hf => ?_⟩
  have h0 := hf 0 (by norm_num)
  have h1 := hf 1 (by norm_num)
  have h2 := hf 2 (by norm_num)
  have h3 := hf 3 le_rfl
  simp [retry_on_failure, retryAux, h0, h1, h2, h3, hguard hs]

/-- Witness for C2 at the failing input: a call that raises an `HTTPError`
with a 404 response on every attempt is not rethrown immediately — the dead
guard evaluates to false and the decorator makes four calls with three
backoff sleeps before rethrowing. -/
theorem http_4xx_retried_to_exhaustion_witness :
    nonRetryableStatus (some 404) = false
    ∧ retry_on_failure (fun _ => CallResult.httpErr (some 404)) 3
        = ⟨some (CallResult.httpErr (some 404)), 4, 3⟩ :=
  ⟨(http_4xx_retried_to_exhaustion (fun _ => CallResult.httpErr (some 404)) 404).1
      (by norm_num),
    (http_4xx_retried_to_exhaustion (fun _ => CallResult.httpErr (some 404)) 404).2
      (by norm_num) (fun i _ => rfl)⟩

/-! ### C3 — percentage change -/

/-- C3: the percentage-change function returns 100 when the old value is 0
and the new value is positive, 0 when the old value is 0 and the new value
is not positive, and otherwise `((new - old) / old) * 100` rounded to two
decimal places; it agrees with the spec's §8 formulation everywhere. -/
theorem percentage_change_contract (old_value new_value : ℚ) :
    calculate_percentage_change old_value new_value = percentChangeSpec old_value new_value
    ∧ (old_value = 0 → 0 < new_value → calculate_percentage_change old_value new_value = 100)
    ∧ (old_value = 0 → new_value ≤ 0 → calculate_percentage_change old_value new_value = 0)
    ∧ (old_value ≠ 0 → calculate_percentage_change old_value new_value =
        pyRound2 ((new_value - old_value) / old_value * 100)) := by
  by_cases ho : old_value = 0
  · by_cases hn : 0 < new_value
    · exact ⟨by simp [calculate_percentage_change, percentChangeSpec, ho, hn],
        fun _ _ => by simp [calculate_percentage_change, ho, hn],
        fun _ h => absurd hn (not_lt.mpr h), fun h => absurd ho h⟩
    · exact ⟨by simp [calculate_percentage_change, percentChangeSpec, ho, hn],
        fun _ h => absurd h hn,
        fun _ _ => by simp [calculate_percentage_change, ho, hn], fun h => absurd ho h⟩
  · exact ⟨by simp [calculate_percentage_change, percentChangeSpec, ho],
      fun h => absurd h ho, fun h => absurd h ho,
      fun _ => by simp [calculate_percentage_change, ho]⟩

/-- Witness for C3: 0 → 5 gives 100, 0 → 0 gives 0, and 100 → 150 gives the
rounded formula value, which evaluates to 50. -/
theorem percentage_change_contract_witness :
    calculate_percentage_change 0 5 = 100
    ∧ calculate_percentage_change 0 0 = 0
    ∧ calculate_percentage_change 100 150 = pyRound2 ((150 - 100) / 100 * 100)
    ∧ calculate_percentage_change 100 150 = 50 := by
  refine ⟨(percentage_change_contract 0 5).2.1 rfl (by norm_num),
    (percentage_change_contract 0 0).2.2.1 rfl le_rfl,
    (percentage_change_contract 100 150).2.2.2 (by norm_num), ?_⟩
  rw [(percentage_change_contract 100 150).2.2.2 (by norm_num)]
  norm_num [pyRound2, roundHalfEven]

/-! ### C6 — anomaly severity bands -/

/-- C6: with a nonzero threshold the severity is classified from the
relative deviation `|current - threshold| / |threshold|` — at least 2 is
`critical`, at least 1 (below 2) is `high`, at least 1/2 (below 1) is
`medium`, below 1/2 is `low`, each band inclusive at its lower boundary;
with a zero threshold and nonzero current value the deviation is infinite
and the severity `critical`.  (In this arithmetic model the `except` branch
returning `medium` is unreachable: the deviation computation is total.) -/
theorem severity_bands (c t : ℚ) :
    (t = 0 → c ≠ 0 → calculate_severity c t = Severity.critical)
    ∧ (t ≠ 0 → 2 ≤ |c - t| / |t| → calculate_severity c t = Severity.critical)
    ∧ (t ≠ 0 → 1 ≤ |c - t| / |t| → |c - t| / |t| < 2 → calculate_severity c t = Severity.high)
    ∧ (t ≠ 0 → 1 / 2 ≤ |c - t| / |t| → |c - t| / |t| < 1 →
        calculate_severity c t = Severity.medium)
    ∧ (t ≠ 0 → |c - t| / |t| < 1 / 2 → calculate_severity c t = Severity.low) := by
  refine ⟨?_, ?_, ?_, ?_, ?_⟩
  · intro ht hc
    simp [calculate_severity, ht, hc, le_top]
  · intro ht h2
    rw [calculate_severity_of_ne c t ht, if_pos h2]
  · intro ht h1 h2
    rw [calculate_severity_of_ne c t ht, if_neg (not_le.mpr h2), if_pos h1]
  · intro ht hh h1
    rw [calculate_severity_of_ne c t ht, if_neg (not_le.mpr (by linarith)),
      if_neg (not_le.mpr h1), if_pos hh]
  · intro ht hh
    rw [calculate_severity_of_ne c t ht, if_neg (not_le.mpr (by linarith)),
      if_neg (not_le.mpr (by linarith)), if_neg (not_le.mpr hh)]

/-- Witness for C6 at the boundary ratios 2, 1, 1/2, and below, plus the
zero-threshold case. -/
theorem severity_bands_witness :
    calculate_severity 3 1 = Severity.critical
    ∧ calculate_severity 2 1 = Severity.high
    ∧ calculate_severity (3 / 2) 1 = Severity.medium
    ∧ calculate_severity (5 / 4) 1 = Severity.low
    ∧ calculate_severity 50 0 = Severity.critical := by
  refine ⟨(severity_bands 3 1).2.1 (by norm_num) (by norm_num),
    (severity_bands 2 1).2.2.1 (by norm_num) (by norm_num) (by norm_num),
    (severity_bands (3 / 2) 1).2.2.2.1 (by norm_num) (by rw [abs_of_nonneg] <;> norm_num)
      (by rw [abs_of_nonneg] <;> norm_num),
    (severity_bands (5 / 4) 1).2.2.2.2 (by norm_num) (by rw [abs_of_nonneg] <;> norm_num),
    (severity_bands 50 0).1 rfl (by norm_num)⟩

/-! ### C7 — double breach tie-break -/

/-- C7: when both thresholds are configured and the current value breaches
both bounds, the above-maximum check runs second and overwrites the
below-minimum result, so the reported trigger is `above_maximum` with the
maximum threshold. -/
theorem double_breach_above_maximum_wins (tmin tmax current : ℚ)
    (hmin : current < tmin) (hmax : tmax < current) :
    check_single_rule (some tmin) (some tmax) current
      = some (TriggerDir.above_maximum, tmax) := by
  have _below : (if current < tmin then some (TriggerDir.below_minimum, tmin)
      else none) = some (TriggerDir.below_minimum, tmin) := if_pos hmin
  simp [check_single_rule, hmax]

/-- Witness for C7: minimum 5, maximum 1, current 3 breaches both and
reports `above_maximum` at threshold 1. -/
theorem double_breach_above_maximum_wins_witness :
    check_single_rule (some 5) (some 1) 3 = some (TriggerDir.above_maximum, 1) :=
  double_breach_above_maximum_wins 5 1 3 (by norm_num) (by norm_num)

/-! ### C8 — concurrency guard -/

/-- C8: when some execution of a schedule is still `running`, triggering
that schedule again — through the scheduler path or the schedule-based
manual path — creates no new execution record and returns `false`; the
database of execution records is unchanged. -/
theorem concurrency_guard_skips_trigger (db : List TaskExecution)
    (schedule : TaskSchedule) (target_date : Option Nat) (outcome : TaskOutcome)
    (ol el : String) (st : ExecStats)
    (h : ∃ e ∈ db, e.schedule = some schedule ∧ e.status = ExecStatus.running) :
    execute_schedule_auto db schedule target_date outcome ol el st = (false, db)
    ∧ execute_schedule_manual db schedule target_date outcome ol el st = (false, db) := by
  have hany : (db.any fun e =>
      e.schedule = some schedule && e.status = ExecStatus.running) = true := by
    obtain ⟨e, he, h1, h2⟩ := h
    exact List.any_eq_true.mpr ⟨e, he, by simp [h1, h2]⟩
  by_cases ha : schedule.is_active = false
  · exact ⟨by simp [execute_schedule_auto, execute_schedule, ha],
      by simp [execute_schedule_manual, execute_schedule, ha]⟩
  · exact ⟨by simp [execute_schedule_auto, execute_schedule, ha, hany],
      by simp [execute_schedule_manual, execute_schedule, ha, hany]⟩

/-- Witness for C8: with one running execution of `sampleSchedule` in the
database, both trigger paths return `false` and leave the database as it
was. -/
theorem concurrency_guard_skips_trigger_witness :
    execute_schedule_auto [sampleRunning] sampleSchedule none TaskOutcome.ok "" "" sampleStats
      = (false, [sampleRunning])
    ∧ execute_schedule_manual [sampleRunning] sampleSchedule none TaskOutcome.ok "" "" sampleStats
      = (false, [sampleRunning]) :=
  concurrency_guard_skips_trigger [sampleRunning] sampleSchedule none TaskOutcome.ok "" ""
    sampleStats ⟨sampleRunning, List.mem_singleton_self _, rfl, rfl⟩

/-! ### C9 — retry eligibility and the retry record -/

/-- C9: for an execution holding a schedule, `can_retry` is true exactly
when the status is `failed` or `timeout` and the retry counter is strictly
below the schedule's budget; a retry then appends one fresh record —
referencing the same schedule, with trigger type `retry` and retry counter
one higher — and leaves every existing record, the failed one included,
unchanged. -/
theorem retry_eligibility_and_record (db : List TaskExecution) (e : TaskExecution)
    (s : TaskSchedule) (outcome : TaskOutcome) (ol el : String) (st : ExecStats)
    (hs : e.schedule = some s) :
    (can_retry e = true ↔
      ((e.status = ExecStatus.failed ∨ e.status = ExecStatus.timeout)
        ∧ e.retry_count < s.retry_count))
    ∧ (can_retry e = true →
        ∃ r, (retry_execution db e outcome ol el st).2 = db ++ [r]
          ∧ r.schedule = some s
          ∧ r.trigger_type = TriggerKind.retry
          ∧ r.retry_count = e.retry_count + 1) := by
  constructor
  · simp [can_retry, hs, Bool.and_eq_true, Bool.or_eq_true, decide_eq_true_eq]
  · intro hcr
    refine ⟨execute_task (newExecution e.schedule .retry e.app e.target_date
      (e.retry_count + 1)) outcome ol el st, ?_, ?_, ?_, ?_⟩
    · simp [retry_execution, hcr]
    · rw [(execute_task_fixed_fields _ outcome ol el st).1]
      simp [newExecution, hs]
    · rw [(execute_task_fixed_fields _ outcome ol el st).2.1]
      rfl
    · rw [(execute_task_fixed_fields _ outcome ol el st).2.2]
      rfl

/-- Witness for C9: `sampleFailed` (status `failed`, two retries used,
budget 3) is retry-eligible, and retrying it appends exactly one record
with the same schedule, trigger `retry` and retry counter 3. -/
theorem retry_eligibility_and_record_witness :
    can_retry sampleFailed = true
    ∧ ∃ r, (retry_execution [sampleFailed] sampleFailed TaskOutcome.ok "" "" sampleStats).2
        = [sampleFailed] ++ [r]
      ∧ r.schedule = some sampleSchedule
      ∧ r.trigger_type = TriggerKind.retry
      ∧ r.retry_count = 3 := by
  have h := retry_eligibility_and_record [sampleFailed] sampleFailed sampleSchedule
    TaskOutcome.ok "" "" sampleStats rfl
  exact ⟨h.1.mpr ⟨Or.inl rfl, by decide⟩, h.2 (h.1.mpr ⟨Or.inl rfl, by decide⟩)⟩

/-! ### C10 — schedule-less executions are never retry-eligible -/

/-- C10: `can_retry` is false for every execution without a schedule,
whatever its status and retry counter; in particular the record created by
a manual task run (which always has a null schedule) is never
retry-eligible. -/
theorem scheduleless_never_retryable (e : TaskExecution)
    (db : List TaskExecution) (app target_date : Option Nat) (outcome : TaskOutcome)
    (ol el : String) (st : ExecStats) (h : e.schedule = none) :
    can_retry e = false
    ∧ ∃ r, (execute_manual_task db app target_date outcome ol el st).2 = db ++ [r]
        ∧ can_retry r = false := by
  constructor
  · simp [can_retry, h]
  · refine ⟨execute_task (newExecution none .manual app target_date 0) outcome ol el st,
      rfl, ?_⟩
    have hsch : (execute_task (newExecution none .manual app target_date 0)
        outcome ol el st).schedule = none :=
      (execute_task_fixed_fields (newExecution none .manual app target_date 0)
        outcome ol el st).1
    simp [can_retry, hsch]

/-- Witness for C10: a failed execution with no schedule cannot be retried,
and the record appended by a manual task run cannot be retried either. -/
theorem scheduleless_never_retryable_witness :
    can_retry { sampleFailed with schedule := none } = false
    ∧ ∃ r, (execute_manual_task [] none none TaskOutcome.ok "" "" sampleStats).2 = [] ++ [r]
        ∧ can_retry r = false :=
  scheduleless_never_retryable { sampleFailed with schedule := none }
    [] none none TaskOutcome.ok "" "" sampleStats rfl

/-! ### Dictionary and daily-map lemmas (for C4 and C5) -/

/-- Inserting a key makes it retrievable with the inserted value. -/
theorem dictGet_dictInsert_self (m : List (Nat × Nat × Nat)) (k : Nat) (v : Nat × Nat) :
    dictGet (dictInsert m k v) k = some v := by
  induction m with
  | nil => simp [dictInsert, dictGet]
  | cons p rest ih =>
    obtain ⟨k', v'⟩ := p
    by_cases h : k' = k
    · simp [dictInsert, dictGet, h]
    · simp [dictInsert, dictGet, h, ih]

/-- The key set after an insertion is the inserted key plus the old keys. -/
theorem mem_keys_dictInsert (m : List (Nat × Nat × Nat)) (k k' : Nat) (v : Nat × Nat) :
    k' ∈ (dictInsert m k v).map Prod.fst ↔ k' = k ∨ k' ∈ m.map Prod.fst := by
  induction m with
  | nil => simp [dictInsert]
  | cons p rest ih =>
    obtain ⟨k0, v0⟩ := p
    by_cases h : k0 = k
    · subst h
      simp [dictInsert]
      try tauto
    · simp [dictInsert, h, ih]
      try tauto

/-- A key is in the key set exactly when lookup succeeds. -/
theorem mem_keys_iff_dictGet (m : List (Nat × Nat × Nat)) (k : Nat) :
    k ∈ m.map Prod.fst ↔ ∃ v, dictGet m k = some v := by
  induction m with
  | nil => simp [dictGet]
  | cons p rest ih =>
    obtain ⟨k0, v0⟩ := p
    by_cases h : k0 = k
    · subst h
      simp [dictGet]
    · simp [dictGet, h, Ne.symm h, ih]

/-- Keys already accumulated survive the rest of the row loop, whether or not
it later `break`s. -/
theorem buildDailyMap_keys_mono (t : Nat) :
    ∀ (rows : List CsvRow) (acc : List (Nat × Nat × Nat)) (k : Nat),
      k ∈ acc.map Prod.fst → k ∈ ((buildDailyMap t acc rows).1).map Prod.fst := by
  intro rows
  induction rows with
  | nil =>
    intro acc k h
    simpa [buildDailyMap] using h
  | cons row rest ih =>
    intro acc k h
    cases hd : row.date with
    | none => simpa [buildDailyMap, hd] using ih acc k h
    | some d =>
      have h' : k ∈ (dictInsert acc d (row.installs, row.uninstalls)).map Prod.fst :=
        (mem_keys_dictInsert _ _ _ _).mpr (Or.inr h)
      by_cases hm : d = t
      · simpa [buildDailyMap, hd, hm] using h'
      · simpa [buildDailyMap, hd, hm] using ih _ k h'

/-- When no row carries the target date, the loop never `break`s and the
final key set is the accumulated keys plus every row date. -/
theorem buildDailyMap_no_match (t : Nat) :
    ∀ (rows : List CsvRow) (acc : List (Nat × Nat × Nat)),
      t ∉ rows.filterMap CsvRow.date →
      (buildDailyMap t acc rows).2 = none
      ∧ ∀ k, (k ∈ ((buildDailyMap t acc rows).1).map Prod.fst ↔
          (k ∈ acc.map Prod.fst ∨ k ∈ rows.filterMap CsvRow.date)) := by
  intro rows
  induction rows with
  | nil =>
    intro acc _
    exact ⟨rfl, fun k => by simp [buildDailyMap]⟩
  | cons row rest ih =>
    intro acc h
    cases hd : row.date with
    | none =>
      have h' : t ∉ rest.filterMap CsvRow.date := by
        simpa [List.filterMap_cons, hd] using h
      refine ⟨by simpa [buildDailyMap, hd] using (ih acc h').1, fun k => ?_⟩
      rw [show (buildDailyMap t acc (row :: rest)).1 = (buildDailyMap t acc rest).1 by
        simp [buildDailyMap, hd]]
      rw [(ih acc h').2 k]
      simp only [List.filterMap_cons, hd]
    | some d =>
      have hsplit : ¬(t = d ∨ t ∈ rest.filterMap CsvRow.date) := by
        simpa [List.filterMap_cons, hd] using h
      have hne : d ≠ t := fun hh => hsplit (Or.inl hh.symm)
      have h' : t ∉ rest.filterMap CsvRow.date := fun hh => hsplit (Or.inr hh)
      have hstep : buildDailyMap t acc (row :: rest)
          = buildDailyMap t (dictInsert acc d (row.installs, row.uninstalls)) rest := by
        simp [buildDailyMap, hd, hne]
      refine ⟨by rw [hstep]; exact (ih _ h').1, fun k => ?_⟩
      rw [hstep, (ih _ h').2 k, mem_keys_dictInsert]
      simp only [List.filterMap_cons, hd, List.mem_cons]
      tauto

/-- When the first row carrying the target date exists, the loop `break`s at
that row and reports it as the matched row. -/
theorem buildDailyMap_first_match (t : Nat) :
    ∀ (pre : List CsvRow) (row : CsvRow) (post : List CsvRow)
      (acc : List (Nat × Nat × Nat)),
      t ∉ pre.filterMap CsvRow.date → row.date = some t →
      (buildDailyMap t acc (pre ++ row :: post)).2 = some row := by
  intro pre
  induction pre with
  | nil =>
    intro row post acc _ hm
    simp [buildDailyMap, hm]
  | cons p pre' ih =>
    intro row post acc hpre hm
    cases hd : p.date with
    | none =>
      have h' : t ∉ pre'.filterMap CsvRow.date := by
        simpa [List.filterMap_cons, hd] using hpre
      simpa [buildDailyMap, hd] using ih row post acc h' hm
    | some d =>
      have hsplit : ¬(t = d ∨ t ∈ pre'.filterMap CsvRow.date) := by
        simpa [List.filterMap_cons, hd] using hpre
      have hne : d ≠ t := fun hh => hsplit (Or.inl hh.symm)
      have h' : t ∉ pre'.filterMap CsvRow.date := fun hh => hsplit (Or.inr hh)
      simpa [buildDailyMap, hd, hne] using ih row post _ h' hm

/-- Every row not preceded by a target-date row lands in the daily map —
the key-membership core of the amended C4. -/
theorem buildDailyMap_key_mem (t : Nat) :
    ∀ (pre : List CsvRow) (row : CsvRow) (post : List CsvRow)
      (acc : List (Nat × Nat × Nat)) (d : Nat),
      row.date = some d → t ∉ pre.filterMap CsvRow.date →
      d ∈ ((buildDailyMap t acc (pre ++ row :: post)).1).map Prod.fst := by
  intro pre
  induction pre with
  | nil =>
    intro row post acc d hd _
    have h' : d ∈ (dictInsert acc d (row.installs, row.uninstalls)).map Prod.fst :=
      (mem_keys_dictInsert _ _ _ _).mpr (Or.inl rfl)
    by_cases hm : d = t
    · simpa [buildDailyMap, hd, hm] using h'
    · simpa [buildDailyMap, hd, hm] using buildDailyMap_keys_mono t post _ d h'
  | cons p pre' ih =>
    intro row post acc d hd hpre
    cases hp : p.date with
    | none =>
      have h' : t ∉ pre'.filterMap CsvRow.date := by
        simpa [List.filterMap_cons, hp] using hpre
      simpa [buildDailyMap, hp] using ih row post acc d hd h'
    | some d0 =>
      have hsplit : ¬(t = d0 ∨ t ∈ pre'.filterMap CsvRow.date) := by
        simpa [List.filterMap_cons, hp] using hpre
      have hne : d0 ≠ t := fun hh => hsplit (Or.inl hh.symm)
      have h' : t ∉ pre'.filterMap CsvRow.date := fun hh => hsplit (Or.inr hh)
      simpa [buildDailyMap, hp, hne] using ih row post _ d hd h'

/-- The `daily_map` component of the result is always the map the row loop
built, in all three branches. -/
theorem get_statistics_daily_map (rows : List CsvRow) (t : Nat) :
    (get_statistics_data rows t).daily_map = (buildDailyMap t [] rows).1 := by
  cases h2 : (buildDailyMap t [] rows).2 with
  | some row => simp [get_statistics_data, h2]
  | none =>
    cases hl : (List.insertionSort (· ≤ ·)
        ((((buildDailyMap t [] rows).1).map Prod.fst).filter (· ≤ t))).getLast? with
    | none => simp [get_statistics_data, h2, hl]
    | some eff => simp [get_statistics_data, h2, hl]

/-- Reduction of `get_statistics_data` in the fallback branch. -/
theorem get_statistics_fallback (rows : List CsvRow) (t eff a b : Nat)
    (h2 : (buildDailyMap t [] rows).2 = none)
    (heff : (List.insertionSort (· ≤ ·)
        ((((buildDailyMap t [] rows).1).map Prod.fst).filter (· ≤ t))).getLast? = some eff)
    (hv : dictGet (buildDailyMap t [] rows).1 eff = some (a, b)) :
    (get_statistics_data rows t).effective_date = some eff
    ∧ (get_statistics_data rows t).downloads = a
    ∧ (get_statistics_data rows t).deletions = b := by
  refine ⟨?_, ?_, ?_⟩ <;> simp [get_statistics_data, h2, heff, hv]

/-- In an ascending-sorted list, the last element is an upper bound. -/
theorem le_getLast_of_sorted :
    ∀ (l : List Nat), l.Sorted (· ≤ ·) → ∀ x ∈ l, ∀ a, l.getLast? = some a → x ≤ a := by
  intro l
  induction l with
  | nil =>
    intro _ x hx
    exact absurd hx (List.not_mem_nil x)
  | cons y ys ih =>
    intro hs x hx a ha
    cases ys with
    | nil =>
      have hya : y = a := by simpa using ha
      have hxy : x = y := by simpa using hx
      omega
    | cons z zs =>
      rw [List.getLast?_cons_cons] at ha
      rw [List.sorted_cons] at hs
      rcases List.mem_cons.mp hx with rfl | hx'
      · exact hs.1 a (List.mem_of_mem_getLast? ha)
      · exact ih hs.2 x hx' a ha

/-! ### C4 — how much of the CSV lands in the daily map -/

/-- C4 counterexample: on the overview rows 2024-05-01..03 with target date
2024-05-02, the 2024-05-03 row has a `Date` value yet gets no entry in the
returned daily map — the row loop `break`s at the matching 2024-05-02 row —
and `max_available_date` is accordingly truncated to the target date, not
the CSV's true maximum. -/
theorem daily_map_not_from_all_rows :
    (⟨some 20240503, 30, 3⟩ : CsvRow) ∈ sampleRows
    ∧ dictGet (get_statistics_data sampleRows 20240502).daily_map 20240503 = none
    ∧ (get_statistics_data sampleRows 20240502).max_available_date = some 20240502 := by
  refine ⟨by decide, by decide, by decide⟩

/-- C4 (amended): the daily map contains an entry for every row with a
`Date` value that is not preceded by a target-date row — the loop stops
right after the first target-date match, so up to and including that row
every dated row is in the map; in particular, when no row carries the
target date the map is built from all rows. -/
theorem daily_map_entries_up_to_first_match (target : Nat) (pre post : List CsvRow)
    (row : CsvRow) (d : Nat) (hrow : row.date = some d)
    (hpre : target ∉ pre.filterMap CsvRow.date) :
    ∃ v, dictGet (get_statistics_data (pre ++ row :: post) target).daily_map d = some v := by
  rw [get_statistics_daily_map]
  exact (mem_keys_iff_dictGet _ _).mp
    (buildDailyMap_key_mem target pre row post [] d hrow hpre)

/-- Witness for the amended C4: the target-date row 2024-05-02 itself gets a
map entry even though the loop stops at it. -/
theorem daily_map_entries_up_to_first_match_witness :
    ∃ v, dictGet (get_statistics_data
      ([⟨some 20240501, 10, 1⟩] ++ ⟨some 20240502, 20, 2⟩ :: [⟨some 20240503, 30, 3⟩])
      20240502).daily_map 20240502 = some v :=
  daily_map_entries_up_to_first_match 20240502 [⟨some 20240501, 10, 1⟩]
    [⟨some 20240503, 30, 3⟩] ⟨some 20240502, 20, 2⟩ 20240502 rfl (by decide)

/-! ### C5 — target-date preference and nearest-date fallback -/

/-- C5: when the first target-date row exists, the result is that row's
installs and uninstalls with `effective_date` equal to the target; when no
row carries the target date but some row date is `≤` the target, the result
is the daily-map entry of the closest available date `≤` the target, with
`effective_date` set to that date. -/
theorem bulk_effective_date_selection (rows : List CsvRow) (target : Nat) :
    (∀ (pre post : List CsvRow) (row : CsvRow),
        rows = pre ++ row :: post → row.date = some target →
        target ∉ pre.filterMap CsvRow.date →
        (get_statistics_data rows target).effective_date = some target
        ∧ (get_statistics_data rows target).downloads = row.installs
        ∧ (get_statistics_data rows target).deletions = row.uninstalls)
    ∧ (target ∉ rows.filterMap CsvRow.date →
        (∃ d0 ∈ rows.filterMap CsvRow.date, d0 ≤ target) →
        ∃ eff, (get_statistics_data rows target).effective_date = some eff
          ∧ eff ≤ target
          ∧ eff ∈ rows.filterMap CsvRow.date
          ∧ (∀ d ∈ rows.filterMap CsvRow.date, d ≤ target → d ≤ eff)
          ∧ dictGet (get_statistics_data rows target).daily_map eff
              = some ((get_statistics_data rows target).downloads,
                      (get_statistics_data rows target).deletions)) := by
  constructor
  · intro pre post row hrows hdate hpre
    subst hrows
    have hm := buildDailyMap_first_match target pre row post [] hpre hdate
    exact ⟨by simp [get_statistics_data, hm], by simp [get_statistics_data, hm],
      by simp [get_statistics_data, hm]⟩
  · intro hnone hex
    have hb := buildDailyMap_no_match target rows [] hnone
    have h2 : (buildDailyMap target [] rows).2 = none := hb.1
    have hkeys : ∀ k, k ∈ ((buildDailyMap target [] rows).1).map Prod.fst ↔
        k ∈ rows.filterMap CsvRow.date := by
      intro k
      rw [hb.2 k]
      simp
    obtain ⟨d0, hd0mem, hd0le⟩ := hex
    have hd0l : d0 ∈ List.insertionSort (· ≤ ·)
        ((((buildDailyMap target [] rows).1).map Prod.fst).filter (· ≤ target)) :=
      (List.perm_insertionSort _ _).mem_iff.mpr
        (List.mem_filter.mpr ⟨(hkeys d0).mpr hd0mem, by simpa using hd0le⟩)
    obtain ⟨eff, heff⟩ : ∃ a, (List.insertionSort (· ≤ ·)
        ((((buildDailyMap target [] rows).1).map Prod.fst).filter (· ≤ target))).getLast?
          = some a := by
      cases hg : (List.insertionSort (· ≤ ·)
          ((((buildDailyMap target [] rows).1).map Prod.fst).filter (· ≤ target))).getLast? with
      | none =>
        exact absurd (List.getLast?_eq_none_iff.mp hg) (List.ne_nil_of_mem hd0l)
      | some a => exact ⟨a, rfl⟩
    have hefff := (List.perm_insertionSort _ _).mem_iff.mp (List.mem_of_mem_getLast? heff)
    have heffkeys := (List.mem_filter.mp hefff).1
    have heffle : eff ≤ target := by simpa using (List.mem_filter.mp hefff).2
    have hmax : ∀ d ∈ rows.filterMap CsvRow.date, d ≤ target → d ≤ eff := by
      intro d hd hdle
      refine le_getLast_of_sorted _ (List.sorted_insertionSort _ _) d ?_ eff heff
      exact (List.perm_insertionSort _ _).mem_iff.mpr
        (List.mem_filter.mpr ⟨(hkeys d).mpr hd, by simpa using hdle⟩)
    obtain ⟨v, hv⟩ := (mem_keys_iff_dictGet _ _).mp heffkeys
    obtain ⟨a, b⟩ := v
    have hred := get_statistics_fallback rows target eff a b h2 heff hv
    refine ⟨eff, hred.1, heffle, (hkeys eff).mp heffkeys, hmax, ?_⟩
    rw [get_statistics_daily_map, hred.2.1, hred.2.2]
    exact hv

/-- Witness for C5: the exact 2024-05-02 row is preferred with
`effective_date` equal to the target, and a request for the absent
2024-05-04 falls back to the closest available date. -/
theorem bulk_effective_date_selection_witness :
    ((get_statistics_data
        ([⟨some 20240501, 10, 1⟩] ++ ⟨some 20240502, 20, 2⟩ :: [⟨some 20240503, 30, 3⟩])
        20240502).effective_date = some 20240502
      ∧ (get_statistics_data
        ([⟨some 20240501, 10, 1⟩] ++ ⟨some 20240502, 20, 2⟩ :: [⟨some 20240503, 30, 3⟩])
        20240502).downloads = 20
      ∧ (get_statistics_data
        ([⟨some 20240501, 10, 1⟩] ++ ⟨some 20240502, 20, 2⟩ :: [⟨some 20240503, 30, 3⟩])
        20240502).deletions = 2)
    ∧ (∃ eff, (get_statistics_data sampleRows 20240504).effective_date = some eff
        ∧ eff ≤ 20240504
        ∧ eff ∈ sampleRows.filterMap CsvRow.date
        ∧ (∀ d ∈ sampleRows.filterMap CsvRow.date, d ≤ 20240504 → d ≤ eff)
        ∧ dictGet (get_statistics_data sampleRows 20240504).daily_map eff
            = some ((get_statistics_data sampleRows 20240504).downloads,
                    (get_statistics_data sampleRows 20240504).deletions)) := by
  constructor
  · exact (bulk_effective_date_selection
      ([⟨some 20240501, 10, 1⟩] ++ ⟨some 20240502, 20, 2⟩ :: [⟨some 20240503, 30, 3⟩])
      20240502).1 [⟨some 20240501, 10, 1⟩] [⟨some 20240503, 30, 3⟩]
      ⟨some 20240502, 20, 2⟩ rfl rfl (by decide)
  · exact (bulk_effective_date_selection sampleRows 20240504).2 (by decide)
      ⟨20240503, by decide, by decide⟩

end AppDataMonitor
